import Mathlib

/-!
Verification development for the prediction-evaluation script
`scripts/compare_predictions.py` of the ECE535-PROJECT repository.

The script is embedded shallowly:
* JSON values are the inductive `Json`; Python dictionaries with string keys
  are association lists with a single occurrence per key (`dictInsert`
  overwrites in place, modelling last-write-wins insertion).
* `json.loads` is embedded as `jsonLoads`, a fuel-based recursive-descent
  reader of the strict JSON grammar (whitespace, null, booleans, numbers as
  exact rationals, strings with escapes, arrays, objects with
  last-occurrence-wins duplicate keys).  Deviations, all irrelevant to the
  claims: binary floating-point rounding of number literals is not applied
  (the literal's exact rational value is kept), lone surrogate escapes
  collapse to the NUL character, and the non-standard NaN/Infinity
  literals Python additionally accepts are not modelled.
* Fallible Python code runs in `Except PyError`; `dict[k]` raises
  `KeyError`, attribute access on the wrong type raises `AttributeError`,
  `len` and arithmetic on the wrong type raise `TypeError`, and `/` with a
  zero denominator raises `ZeroDivisionError`.
* `print` output is modelled only where a claim depends on it (the parse
  failure messages of `parse_prediction`); numeric formatting of printed
  floating point statistics is not modelled, but their failure modes are.
-/

namespace CP

/-- Python/JSON values as produced by `json.loads`. -/
inductive Json where
  | null : Json
  | bool (b : Bool) : Json
  | num (q : Rat) : Json
  | str (s : String) : Json
  | arr (elems : List Json) : Json
  | obj (fields : List (String × Json)) : Json

/-- Python truthiness of a JSON value (`if prediction:` at line 67). -/
def Json.truthy : Json → Bool
  | .null => false
  | .bool b => b
  | .num q => q != 0
  | .str s => s != ""
  | .arr l => !l.isEmpty
  | .obj l => !l.isEmpty

/-- Whether the value is a Python `str`. -/
def Json.isStr : Json → Bool
  | .str _ => true
  | _ => false

/-- Python dict insertion: overwrite in place when the key exists,
append otherwise (dicts keep first-insertion order of keys). -/
def dictInsert {α : Type} (d : List (String × α)) (k : String) (v : α) :
    List (String × α) :=
  match d with
  | [] => [(k, v)]
  | (k', v') :: rest =>
    if k' = k then (k, v) :: rest else (k', v') :: dictInsert rest k v

/-- JSON insignificant whitespace accepted by `json.loads`. -/
def isJsonWs (c : Char) : Bool :=
  c = ' ' || c = '\t' || c = '\n' || c = '\r'

/-- Skip leading JSON whitespace. -/
def skipJsonWs : List Char → List Char
  | [] => []
  | c :: cs => if isJsonWs c then skipJsonWs cs else c :: cs

/-- Value of a hexadecimal digit. -/
def hexVal (c : Char) : Option Nat :=
  if '0' ≤ c ∧ c ≤ '9' then some (c.toNat - '0'.toNat)
  else if 'a' ≤ c ∧ c ≤ 'f' then some (c.toNat - 'a'.toNat + 10)
  else if 'A' ≤ c ∧ c ≤ 'F' then some (c.toNat - 'A'.toNat + 10)
  else none

/-- Read a JSON string body (the opening quote already consumed),
handling the escape sequences accepted by `json.loads` and rejecting raw
control characters, as the strict decoder does. -/
def readJsonString : Nat → List Char → Option (List Char × List Char)
  | 0, _ => none
  | _ + 1, [] => none
  | fuel + 1, c :: cs =>
    if c = '"' then some ([], cs)
    else if c = '\\' then
      match cs with
      | [] => none
      | e :: cs' =>
        if e = '"' then (readJsonString fuel cs').map (fun p => ('"' :: p.1, p.2))
        else if e = '\\' then (readJsonString fuel cs').map (fun p => ('\\' :: p.1, p.2))
        else if e = '/' then (readJsonString fuel cs').map (fun p => ('/' :: p.1, p.2))
        else if e = 'b' then (readJsonString fuel cs').map (fun p => ('\x08' :: p.1, p.2))
        else if e = 'f' then (readJsonString fuel cs').map (fun p => ('\x0c' :: p.1, p.2))
        else if e = 'n' then (readJsonString fuel cs').map (fun p => ('\n' :: p.1, p.2))
        else if e = 'r' then (readJsonString fuel cs').map (fun p => ('\r' :: p.1, p.2))
        else if e = 't' then (readJsonString fuel cs').map (fun p => ('\t' :: p.1, p.2))
        else if e = 'u' then
          match cs' with
          | h1 :: h2 :: h3 :: h4 :: cs'' =>
            match hexVal h1, hexVal h2, hexVal h3, hexVal h4 with
            | some a, some b, some c3, some d =>
              let n := ((a * 16 + b) * 16 + c3) * 16 + d
              (readJsonString fuel cs'').map (fun p => (Char.ofNat n :: p.1, p.2))
            | _, _, _, _ => none
          | _ => none
        else none
    else if c.toNat < 32 then none
    else (readJsonString fuel cs).map (fun p => (c :: p.1, p.2))

/-- Take a maximal run of decimal digits. -/
def takeDigits : List Char → List Char × List Char
  | [] => ([], [])
  | c :: cs =>
    if c.isDigit then
      let p := takeDigits cs
      (c :: p.1, p.2)
    else ([], c :: cs)

/-- Natural number denoted by a digit run. -/
def digitsToNat (ds : List Char) : Nat :=
  ds.foldl (fun n c => n * 10 + (c.toNat - '0'.toNat)) 0

/-- Read a JSON number literal per the strict grammar (optional minus,
integer part without leading zeros, optional fraction, optional exponent)
and return its exact rational value. -/
def readJsonNumber (cs : List Char) : Option (Rat × List Char) :=
  let (neg, cs1) :=
    match cs with
    | '-' :: rest => (true, rest)
    | _ => (false, cs)
  match cs1 with
  | [] => none
  | c :: rest =>
    if ¬ c.isDigit then none
    else
      let (intDigits, cs2) :=
        if c = '0' then ([c], rest)
        else takeDigits (c :: rest)
      let intPart : Rat := (digitsToNat intDigits : Nat)
      let (fracPart, cs3) :=
        match cs2 with
        | '.' :: r =>
          let p := takeDigits r
          if p.1.isEmpty then (none, cs2)
          else (some ((digitsToNat p.1 : Rat) / ((10 : Rat) ^ p.1.length)), p.2)
        | _ => (some 0, cs2)
      match fracPart with
      | none => none
      | some fp =>
        let base := intPart + fp
        let expRes : Option (Int × List Char) :=
          match cs3 with
          | e :: r =>
            if e = 'e' ∨ e = 'E' then
              let (esign, r1) :=
                match r with
                | '+' :: r' => ((1 : Int), r')
                | '-' :: r' => ((-1 : Int), r')
                | _ => ((1 : Int), r)
              let p := takeDigits r1
              if p.1.isEmpty then none
              else some (esign * (digitsToNat p.1 : Int), p.2)
            else some (0, cs3)
          | [] => some (0, cs3)
        match expRes with
        | none => none
        | some (e, cs4) =>
          let q :=
            if 0 ≤ e then base * (10 : Rat) ^ e.toNat
            else base / (10 : Rat) ^ (-e).toNat
          some (if neg then -q else q, cs4)

mutual

/-- Read one JSON value (leading whitespace allowed). -/
def readJsonValue : Nat → List Char → Option (Json × List Char)
  | 0, _ => none
  | fuel + 1, cs0 =>
    match skipJsonWs cs0 with
    | [] => none
    | c :: rest =>
      if c = 'n' then
        match rest with
        | 'u' :: 'l' :: 'l' :: r => some (.null, r)
        | _ => none
      else if c = 't' then
        match rest with
        | 'r' :: 'u' :: 'e' :: r => some (.bool true, r)
        | _ => none
      else if c = 'f' then
        match rest with
        | 'a' :: 'l' :: 's' :: 'e' :: r => some (.bool false, r)
        | _ => none
      else if c = '"' then
        (readJsonString (rest.length + 1) rest).map (fun p => (.str ⟨p.1⟩, p.2))
      else if c = '[' then
        readJsonArray fuel rest
      else if c = '\x7b' then
        readJsonObject fuel rest
      else if c = '-' ∨ c.isDigit then
        (readJsonNumber (c :: rest)).map (fun p => (.num p.1, p.2))
      else none

/-- Read the remainder of an array (the opening bracket already consumed). -/
def readJsonArray : Nat → List Char → Option (Json × List Char)
  | 0, _ => none
  | fuel + 1, cs =>
    match skipJsonWs cs with
    | ']' :: r => some (.arr [], r)
    | other => (readJsonArrayItems fuel other).map (fun p => (.arr p.1, p.2))

/-- Read one or more comma-separated array elements up to the closing
bracket. -/
def readJsonArrayItems : Nat → List Char → Option (List Json × List Char)
  | 0, _ => none
  | fuel + 1, cs =>
    match readJsonValue fuel cs with
    | none => none
    | some (v, r) =>
      match skipJsonWs r with
      | ',' :: r2 =>
        (readJsonArrayItems fuel r2).map (fun p => (v :: p.1, p.2))
      | ']' :: r2 => some ([v], r2)
      | _ => none

/-- Read the remainder of an object (the opening brace already consumed). -/
def readJsonObject : Nat → List Char → Option (Json × List Char)
  | 0, _ => none
  | fuel + 1, cs =>
    match skipJsonWs cs with
    | '\x7d' :: r => some (.obj [], r)
    | other => (readJsonObjectItems fuel [] other).map (fun p => (.obj p.1, p.2))

/-- Read one or more comma-separated key/value members up to the closing
brace, inserting each into the accumulated dict; duplicate keys follow
dict semantics (insertion order of first occurrence, last value wins). -/
def readJsonObjectItems : Nat → List (String × Json) → List Char →
    Option (List (String × Json) × List Char)
  | 0, _, _ => none
  | fuel + 1, acc, cs =>
    match skipJsonWs cs with
    | '"' :: r =>
      match readJsonString (r.length + 1) r with
      | none => none
      | some (key, r1) =>
        match skipJsonWs r1 with
        | ':' :: r2 =>
          match readJsonValue fuel r2 with
          | none => none
          | some (v, r3) =>
            match skipJsonWs r3 with
            | ',' :: r4 => readJsonObjectItems fuel (dictInsert acc ⟨key⟩ v) r4
            | '\x7d' :: r4 => some (dictInsert acc ⟨key⟩ v, r4)
            | _ => none
        | _ => none
    | _ => none

end

/-- Strict parse of a whole document, as `json.loads` does: one value,
with only whitespace allowed before and after.  The fuel bound exceeds the
recursion depth reachable on the input (each nesting level consumes at
least one character and uses at most two fuel units per parser layer). -/
def jsonLoads (s : String) : Option Json :=
  let cs := s.data
  match readJsonValue (4 * cs.length + 8) cs with
  | some (v, r) => if (skipJsonWs r).isEmpty then some v else none
  | none => none

/-- Whitespace class of the regex `\s` used at line 26 of the script
(the trailing-comma substitution); Unicode whitespace beyond the
ASCII class is not modelled. -/
def isRegexWs (c : Char) : Bool :=
  c = ' ' || c = '\t' || c = '\n' || c = '\r' || c = '\x0b' || c = '\x0c'

/-- Split a character list into its maximal leading regex-whitespace run
and the remainder. -/
def wsSpan : List Char → List Char × List Char
  | [] => ([], [])
  | c :: cs =>
    if isRegexWs c then
      let p := wsSpan cs
      (c :: p.1, p.2)
    else ([], c :: cs)

/-- Left-to-right scan of the regex substitution at line 26: a comma
followed by optional whitespace and a closing brace or bracket is replaced
by the whitespace and the bracket; scanning resumes after the match.  The
fuel starts at the input length; every step consumes at least one
character per fuel unit, so fuel can reach zero only on the empty rest. -/
def stripCommasAux : Nat → List Char → List Char
  | 0, l => l
  | _ + 1, [] => []
  | fuel + 1, c :: rest =>
    if c = ',' then
      match wsSpan rest with
      | (w, b :: r2) =>
        if b = '\x7d' ∨ b = ']' then w ++ b :: stripCommasAux fuel r2
        else ',' :: stripCommasAux fuel rest
      | (_, []) => ',' :: stripCommasAux fuel rest
    else c :: stripCommasAux fuel rest

/-- Line 26 of the script: remove trailing commas before closing brackets
or braces. -/
def stripTrailingCommas (s : String) : String :=
  ⟨stripCommasAux s.data.length s.data⟩

/-- Line 23 of the script, the replace call on prediction text: replace
every backslash-underscore pair by an underscore, scanning left to right
without overlap, exactly as `str.replace` does for this pattern. -/
def fixEscapedUnderscoresAux : List Char → List Char
  | [] => []
  | '\\' :: '_' :: rest => '_' :: fixEscapedUnderscoresAux rest
  | c :: rest => c :: fixEscapedUnderscoresAux rest

/-- Line 23 of the script on a whole string. -/
def fixEscapedUnderscores (s : String) : String :=
  ⟨fixEscapedUnderscoresAux s.data⟩

/-- Outcome of `parse_prediction`: the parsed value (`none` on failure, the
script's ParseFailure signal) together with the printed error lines.  The
exception text interpolated from `JSONDecodeError` is abbreviated to a
fixed message; the second line carries the problematic string, as the
script prints it. -/
structure ParseOutcome where
  result : Option Json
  log : List String

/-- Lines 20–33 of the script, on a text payload: un-escape
backslash-underscore, strip trailing commas, then strict JSON parsing;
on failure print two diagnostic lines and return `None`. -/
def parse_prediction_logged (s : String) : ParseOutcome :=
  let cleaned := stripTrailingCommas (fixEscapedUnderscores s)
  match jsonLoads cleaned with
  | some v => ⟨some v, []⟩
  | none => ⟨none, ["Error parsing prediction", "Problematic string: " ++ cleaned]⟩

/-- The value returned by `parse_prediction` on a text payload. -/
def parse_prediction (s : String) : Option Json :=
  (parse_prediction_logged s).result

/-- Python errors surfaced by the script. -/
inductive PyError where
  | keyError (key : String)
  | attributeError (attr : String)
  | typeError
  | zeroDivisionError
  deriving Repr, DecidableEq

/-- The call of parse_prediction on the raw prediction field at line 66, on the raw
JSON value of the `prediction` field: the function immediately invokes the
string method `.replace`, so any non-string value (a structured record
included) raises `AttributeError`. -/
def parse_prediction_value : Json → Except PyError ParseOutcome
  | .str s => .ok (parse_prediction_logged s)
  | _ => .error (.attributeError "replace")

/-- A ground-truth record of `large.json`.  The script reads only the
`image`, `label` and `id` attributes; per the spec's data model the record
also carries a numeric `severity` and a `hazards` tag list, which are kept
here as fields so that theorems can state that the script never consults
them. -/
structure GtItem where
  image : String
  label : String
  id : Json
  severity : Json
  hazards : List String

/-- A raw entry of the predictions file: a `filename` and the raw
`prediction` payload (an arbitrary JSON value; usually text). -/
structure PredRaw where
  filename : String
  prediction : Json

/-- Embeds the pathlib name attribute: the final path component — the last maximal run of
non-separator characters.  Final `"."` components (which pathlib drops)
are not modelled; no input of interest has them. -/
def pathName (p : String) : String :=
  ⟨((p.data.reverse.dropWhile (fun c => c = '/')).takeWhile
      (fun c => c ≠ '/')).reverse⟩

/-- Python dict subscription: the value at the key, or `KeyError`. -/
def pyDictGet {α : Type} (d : List (String × α)) (k : String) :
    Except PyError α :=
  match d.lookup k with
  | some v => .ok v
  | none => .error (.keyError k)

/-- Subscription of a parsed JSON value: object lookup with `KeyError` when the
key is missing, `TypeError` on every non-dict value. -/
def pyGetItem (j : Json) (k : String) : Except PyError Json :=
  match j with
  | .obj fields =>
    match fields.lookup k with
    | some v => .ok v
    | none => .error (.keyError k)
  | _ => .error .typeError

/-- Python len: defined for strings, lists and dicts; `TypeError`
otherwise. -/
def pyLen : Json → Except PyError Nat
  | .str s => .ok s.length
  | .arr l => .ok l.length
  | .obj l => .ok l.length
  | _ => .error .typeError

/-- Python `a / b` on counts: `ZeroDivisionError` when the denominator is
zero, the exact quotient otherwise. -/
def pyDiv (a b : Nat) : Except PyError Rat :=
  if b = 0 then .error .zeroDivisionError else .ok ((a : Rat) / (b : Rat))

/-- Python `==` between a `bool` on the left and a parsed JSON value on
the right (`bool` is an `int` in Python, so `True == 1` and
`False == 0`; every non-numeric, non-bool value compares unequal). -/
def pyEqBool (b : Bool) (j : Json) : Bool :=
  match j with
  | .bool c => b == c
  | .num q => if b then q == 1 else q == 0
  | _ => false

/-- Coercion of a JSON value to a Python number, as accepted by the
`statistics` functions (`bool` counts as `0`/`1`). -/
def toPyNumber : Json → Option Rat
  | .num q => some q
  | .bool b => some (if b then 1 else 0)
  | _ => none

/-- Lines 57–61: build `large_map`, keyed by the basename of the `image`
path; duplicate basenames follow last-write-wins dict insertion. -/
def buildLargeMapAux (acc : List (String × GtItem)) :
    List GtItem → List (String × GtItem)
  | [] => acc
  | item :: rest => buildLargeMapAux (dictInsert acc (pathName item.image) item) rest

/-- The `large_map` dict of lines 57–61. -/
def buildLargeMap (items : List GtItem) : List (String × GtItem) :=
  buildLargeMapAux [] items

/-- Lines 63–68: build `prediction_map` from the raw entries, keeping only
payloads that parse to a truthy value (`if prediction:`); the printed
parse-failure lines are accumulated alongside.  A non-string payload
raises `AttributeError` inside `parse_prediction` and aborts the build. -/
def buildPredictionMapAux (acc : List (String × Json)) (logs : List String) :
    List PredRaw → Except PyError (List (String × Json) × List String)
  | [] => .ok (acc, logs)
  | item :: rest =>
    match item.prediction with
    | .str s =>
      let po := parse_prediction_logged s
      match po.result with
      | some p =>
        if p.truthy then
          buildPredictionMapAux (dictInsert acc item.filename p) (logs ++ po.log) rest
        else
          buildPredictionMapAux acc (logs ++ po.log) rest
      | none => buildPredictionMapAux acc (logs ++ po.log) rest
    | _ => .error (.attributeError "replace")

/-- The `prediction_map` dict of lines 63–68, with the parse-failure log. -/
def buildPredictionMap (items : List PredRaw) :
    Except PyError (List (String × Json) × List String) :=
  buildPredictionMapAux [] [] items

/-- Line 71: the keys present in both maps.  Python iterates the
resulting set in an unspecified order; the embedding fixes the ground
truth insertion order (every quantity the script derives from the keys is
order independent). -/
def matchingKeys (lm : List (String × GtItem)) (pm : List (String × Json)) :
    List String :=
  (lm.map Prod.fst).filter (fun k => (pm.map Prod.fst).contains k)

/-- Result of `extract_label_info` (lines 36–48). -/
structure LabelInfo where
  baby_present : Bool
  crying : Bool
  sleeping : Bool
  awake_peaceful : Bool

/-- Lines 36–48: derive the boolean categories from the label string. -/
def extract_label_info (label : String) : LabelInfo :=
  { baby_present := label != "not-present"
  , crying := label == "awake/crying"
  , sleeping := label == "asleep"
  , awake_peaceful := label == "awake/peaceful" }

/-- An element of the `incorrect_*` diagnostic lists (lines 95–117). -/
structure IncorrectEntry where
  id : Json
  expected : Bool
  predicted : Json

/-- An element of `severity_matches` (lines 119–125). -/
structure SeverityEntry where
  id : Json
  expected_label : String
  predicted_severity : Json
  predicted_crying : Json
  predicted_baby_present : Json

/-- The accumulators threaded through the comparison loop
(lines 75–125). -/
structure LoopAcc where
  baby_present_correct : Nat
  crying_correct : Nat
  sleeping_correct : Nat
  incorrect_baby_present : List IncorrectEntry
  incorrect_crying : List IncorrectEntry
  incorrect_sleeping : List IncorrectEntry
  severity_matches : List SeverityEntry

/-- The zero-initialised accumulators of lines 76–83. -/
def initAcc : LoopAcc :=
  ⟨0, 0, 0, [], [], [], []⟩

/-- Body of one iteration of the loop at lines 85–125, given the only two
ground-truth attributes the body reads (`label` and `id`): compare the
three boolean categories (a missing attribute on the prediction raises
`KeyError`; no default is substituted) and append the severity record (a
missing `severity` key raises `KeyError`).  Lines 123-124 look the
`crying` and `baby_present` values up a second time; the dict is
unchanged, so the embedding reuses the values bound earlier. -/
def compareLoopStepCore (gtLabel : String) (gtId : Json)
    (pm : List (String × Json)) (acc : LoopAcc) (key : String) :
    Except PyError LoopAcc := do
  let pred_item ← pyDictGet pm key
  let label_info := extract_label_info gtLabel
  let predBaby ← pyGetItem pred_item "baby_present"
  let acc :=
    if pyEqBool label_info.baby_present predBaby then
      { acc with baby_present_correct := acc.baby_present_correct + 1 }
    else
      { acc with incorrect_baby_present :=
          acc.incorrect_baby_present ++
            [⟨gtId, label_info.baby_present, predBaby⟩] }
  let predCrying ← pyGetItem pred_item "crying"
  let acc :=
    if pyEqBool label_info.crying predCrying then
      { acc with crying_correct := acc.crying_correct + 1 }
    else
      { acc with incorrect_crying :=
          acc.incorrect_crying ++
            [⟨gtId, label_info.crying, predCrying⟩] }
  let predSleeping ← pyGetItem pred_item "sleeping"
  let acc :=
    if pyEqBool label_info.sleeping predSleeping then
      { acc with sleeping_correct := acc.sleeping_correct + 1 }
    else
      { acc with incorrect_sleeping :=
          acc.incorrect_sleeping ++
            [⟨gtId, label_info.sleeping, predSleeping⟩] }
  let predSeverity ← pyGetItem pred_item "severity"
  .ok { acc with severity_matches :=
          acc.severity_matches ++
            [⟨gtId, gtLabel, predSeverity, predCrying, predBaby⟩] }

/-- One iteration of the loop at lines 85–125: fetch the ground-truth
record from `large_map` and run the body on its `label` and `id`. -/
def compareLoopStep (lm : List (String × GtItem)) (pm : List (String × Json))
    (acc : LoopAcc) (key : String) : Except PyError LoopAcc := do
  let large_item ← pyDictGet lm key
  compareLoopStepCore large_item.label large_item.id pm acc key

/-- The whole loop of lines 85–125. -/
def compareLoop (lm : List (String × GtItem)) (pm : List (String × Json))
    (acc : LoopAcc) : List String → Except PyError LoopAcc
  | [] => .ok acc
  | k :: ks => do
    let acc' ← compareLoopStep lm pm acc k
    compareLoop lm pm acc' ks

/-- Failure behaviour of the printed severity statistics (lines 141–160):
`statistics.mean` over a non-empty list of non-numeric values raises
`TypeError`.  The printed floating-point values themselves are not part of
the returned report and are not modelled. -/
def severityStatsGuard (values : List Json) : Except PyError Unit :=
  if values.isEmpty then .ok ()
  else if values.all (fun v => (toPyNumber v).isSome) then .ok ()
  else .error .typeError

/-- Lines 162–165: total number of detected hazards over the matched
predictions, and the number of matched predictions with a truthy
`hazards` value; reads only the prediction side, raising `KeyError` when
a matched prediction has no `hazards` key. -/
def hazardSummary (pm : List (String × Json)) (mk : List String) :
    Except PyError (Nat × Nat) := do
  let total ← pm.foldlM
    (fun t kp =>
      if mk.contains kp.1 then do
        let h ← pyGetItem kp.2 "hazards"
        let n ← pyLen h
        pure (t + n)
      else pure t) 0
  let images ← pm.foldlM
    (fun c kp =>
      if mk.contains kp.1 then do
        let h ← pyGetItem kp.2 "hazards"
        pure (c + if h.truthy then 1 else 0)
      else pure c) 0
  .ok (total, images)

/-- Line 182 (print-only): entries of a diagnostic list with
`expected == True and predicted == False`. -/
def falseNegativeCount (l : List IncorrectEntry) : Nat :=
  (l.filter (fun e => e.expected && pyEqBool false e.predicted)).length

/-- Line 183 (print-only): entries with
`expected == False and predicted == True`. -/
def falsePositiveCount (l : List IncorrectEntry) : Nat :=
  (l.filter (fun e => !e.expected && pyEqBool true e.predicted)).length

/-- The dictionary returned at lines 209–222. -/
structure Report where
  total_matches : Nat
  accuracy_baby_present : Rat
  accuracy_crying : Rat
  accuracy_sleeping : Rat
  incorrect_baby_present : List IncorrectEntry
  incorrect_crying : List IncorrectEntry
  incorrect_sleeping : List IncorrectEntry
  severity_stats : List SeverityEntry

/-- Lines 51–222: the full comparison.  The printed accuracy percentages
of lines 132–139 perform the same divisions as the returned accuracy
block, so a run with zero matches raises `ZeroDivisionError` there; the
severity statistics and the hazard summary are evaluated for their
effects (possible `TypeError` / `KeyError`) before the report is
returned. -/
def compare_predictions (large_data : List GtItem)
    (predictions_data : List PredRaw) : Except PyError Report := do
  let lm := buildLargeMap large_data
  let pmlogs ← buildPredictionMap predictions_data
  let pm := pmlogs.1
  let mk := matchingKeys lm pm
  let total := mk.length
  let acc ← compareLoop lm pm initAcc mk
  let accBaby ← pyDiv acc.baby_present_correct total
  let accCrying ← pyDiv acc.crying_correct total
  let accSleeping ← pyDiv acc.sleeping_correct total
  let _ ← severityStatsGuard (acc.severity_matches.map (fun e => e.predicted_severity))
  let _ ← hazardSummary pm mk
  .ok { total_matches := total
      , accuracy_baby_present := accBaby
      , accuracy_crying := accCrying
      , accuracy_sleeping := accSleeping
      , incorrect_baby_present := acc.incorrect_baby_present
      , incorrect_crying := acc.incorrect_crying
      , incorrect_sleeping := acc.incorrect_sleeping
      , severity_stats := acc.severity_matches }

/-- The run environment of `main`: the contents of the two input files
when they resolve (`none` models an unresolvable path, on which
`load_json` raises `FileNotFoundError`). -/
structure Env where
  large_json : Option (List GtItem)
  predictions_json : Option (List PredRaw)

/-- Observable outcome of a run of `main` (lines 225–249): a completed
report, a caught `FileNotFoundError`, or any other caught exception. -/
inductive MainOutcome where
  | completed (r : Report)
  | fileNotFound
  | errored (e : PyError)

/-- Lines 225–253: `main` catches `FileNotFoundError` and every other
exception, printing a message and returning normally, so the process exit
status (the first component) is `0` in every case. -/
def main (env : Env) : Nat × MainOutcome :=
  match env.large_json with
  | none => (0, .fileNotFound)
  | some gt =>
    match env.predictions_json with
    | none => (0, .fileNotFound)
    | some preds =>
      match compare_predictions gt preds with
      | .ok r => (0, .completed r)
      | .error e => (0, .errored e)

/-- Modelled from the spec (§4.2), for comparison with the source's
parser: the fallback extraction that "searches the text for the first
substring that spans the outermost braces pair" — the span from the first
opening brace through the last closing brace; `none` when no such span
exists. -/
def specBraceSpan (cs : List Char) : Option (List Char) :=
  let fromOpen := cs.dropWhile (fun c => c ≠ '\x7b')
  let upToClose := (fromOpen.reverse.dropWhile (fun c => c ≠ '\x7d')).reverse
  if upToClose.isEmpty then none else some upToClose

/-- Modelled from the spec (§4.2), for comparison with the source's
`parse_prediction`: cleanup, strict parse, and on failure the
brace-span fallback before signalling ParseFailure. -/
def parse_prediction_spec (s : String) : Option Json :=
  let cleaned := stripTrailingCommas (fixEscapedUnderscores s)
  match jsonLoads cleaned with
  | some v => some v
  | none =>
    match specBraceSpan cleaned.data with
    | some sub => jsonLoads ⟨sub⟩
    | none => none

/-- The three hazard-overlap outcomes of spec §4.6. -/
inductive HazardOutcome where
  | exactMatch
  | overlapMatch
  | noMatch
  deriving Repr, DecidableEq

/-- ASCII lowering of one character (Unicode case folding beyond ASCII is
not modelled). -/
def asciiLower (c : Char) : Char :=
  if 'A' ≤ c ∧ c ≤ 'Z' then Char.ofNat (c.toNat + 32) else c

/-- Whitespace removed by Python `str.strip()` (ASCII part). -/
def isStripWs (c : Char) : Bool :=
  c = ' ' || c = '\t' || c = '\n' || c = '\r' || c = '\x0b' || c = '\x0c'

/-- Modelled from the spec (§4.6): case-fold and trim one hazard tag. -/
def normalizeTag (s : String) : String :=
  ⟨(((s.data.dropWhile isStripWs).reverse.dropWhile isStripWs).reverse).map
      asciiLower⟩

/-- Modelled from the spec (§4.6): normalise a hazard tag list to a set of
case-folded, whitespace-trimmed strings. -/
def normalizeHazards (l : List String) : Finset String :=
  (l.map normalizeTag).toFinset

/-- Modelled from the spec (§4.6), for comparison with the source's
hazard handling: classify a (truth, prediction) hazard pair into exactly
one of the three outcomes; two empty sets are an exact match. -/
def specHazardClassify (truthH predH : List String) : HazardOutcome :=
  let t := normalizeHazards truthH
  let p := normalizeHazards predH
  if t = p then .exactMatch
  else if (t ∩ p).Nonempty then .overlapMatch
  else .noMatch

/-! Concrete records used by the claim theorems below. -/

/-- Apply a record rewrite to every value of a ground-truth dict. -/
def dictMapVal (u : GtItem → GtItem) (d : List (String × GtItem)) :
    List (String × GtItem) :=
  d.map (fun kv => (kv.1, u kv.2))

/-- Whether a run produced a value rather than an exception. -/
def exceptIsOk {ε α : Type} : Except ε α → Bool
  | .ok _ => true
  | .error _ => false

/-- A ground-truth record whose label implies `crying = true`. -/
def c1_gt : GtItem :=
  ⟨"images/synth_00001.png", "awake/crying", .str "1", .null, []⟩

/-- A matched prediction whose payload has no `crying` key. -/
def c1_pred : PredRaw :=
  ⟨"synth_00001.png", .str "\x7b\"baby_present\": true, \"sleeping\": false\x7d"⟩

/-- A payload that fails strict parsing (prose around the record) but
whose brace span parses. -/
def c2_text : String := "Here is the result: \x7b\"baby_present\": true\x7d"

/-- A ground-truth record for the severity counterexample. -/
def c3_gt : GtItem := ⟨"images/synth_00002.png", "asleep", .str "2", .null, []⟩

/-- A matched prediction with all three boolean categories but no
`severity` key. -/
def c3_pred : PredRaw :=
  ⟨"synth_00002.png",
    .str "\x7b\"baby_present\": true, \"crying\": false, \"sleeping\": true\x7d"⟩

/-- Ground truth and prediction for the C3 witness run (severity present,
so the run succeeds). -/
def c3w_gt : GtItem := ⟨"images/w.png", "asleep", .str "7", .num 4, []⟩

/-- Prediction payload for the C3 witness run. -/
def c3w_pred : PredRaw :=
  ⟨"w.png",
    .str "\x7b\"baby_present\": true, \"crying\": false, \"sleeping\": true, \"severity\": true, \"hazards\": []\x7d"⟩

/-- Ground truth whose hazards agree with the prediction when normalised. -/
def c4_gtA : GtItem := ⟨"images/synth_00003.png", "asleep", .str "3", .num 2, ["Cord "]⟩

/-- Same ground truth with entirely different hazards. -/
def c4_gtB : GtItem := ⟨"images/synth_00003.png", "asleep", .str "3", .num 2, ["lion"]⟩

/-- A matched prediction carrying hazards `["cord"]`. -/
def c4_pred : PredRaw :=
  ⟨"synth_00003.png",
    .str "\x7b\"baby_present\": true, \"crying\": false, \"sleeping\": true, \"severity\": true, \"hazards\": [\"cord\"]\x7d"⟩

/-- Ground truth for the C7 witness. -/
def c7w_gt : GtItem := ⟨"images/a.png", "asleep", .str "5", .null, []⟩

/-- A parseable prediction entry for the C7 witness. -/
def c7w_good : PredRaw := ⟨"a.png", .str "\x7b\"ok\": true\x7d"⟩

/-- An unparseable prediction entry for the C7 witness. -/
def c7w_bad : PredRaw := ⟨"b.png", .str "oops"⟩

/-- Ground truth for the C8 witness, with a nested directory path. -/
def c8w_gt : GtItem := ⟨"a/b/x.png", "asleep", .str "8", .null, []⟩

/-- Prediction entry for the C8 witness, keyed by bare basename. -/
def c8w_pred : PredRaw := ⟨"x.png", .str "\x7b\"ok\": true\x7d"⟩

/-! ### Dictionary lemmas -/

theorem lookup_dictInsert_self {α : Type} (d : List (String × α)) (k : String)
    (v : α) : (dictInsert d k v).lookup k = some v := by
  induction d with
  | nil => simp [dictInsert, List.lookup]
  | cons kv rest ih =>
    obtain ⟨k', v'⟩ := kv
    by_cases h : k' = k
    · subst h; simp [dictInsert, List.lookup]
    · simp [dictInsert, h, List.lookup,
        beq_eq_false_iff_ne.mpr (fun e => h e.symm), ih]

theorem lookup_dictInsert_ne {α : Type} (d : List (String × α)) (k k' : String)
    (v : α) (hne : k' ≠ k) :
    (dictInsert d k v).lookup k' = d.lookup k' := by
  induction d with
  | nil => simp [dictInsert, List.lookup, beq_eq_false_iff_ne.mpr hne]
  | cons kv rest ih =>
    obtain ⟨k₀, v₀⟩ := kv
    by_cases h : k₀ = k
    · subst h
      simp [dictInsert, List.lookup, beq_eq_false_iff_ne.mpr hne]
    · by_cases h' : k' = k₀
      · subst h'
        simp [dictInsert, h, List.lookup]
      · simp [dictInsert, h, List.lookup,
          beq_eq_false_iff_ne.mpr h', ih]

theorem mem_keys_dictInsert {α : Type} (d : List (String × α)) (k k' : String)
    (v : α) :
    k' ∈ (dictInsert d k v).map Prod.fst ↔ k' = k ∨ k' ∈ d.map Prod.fst := by
  induction d with
  | nil => simp [dictInsert]
  | cons kv rest ih =>
    obtain ⟨k₀, v₀⟩ := kv
    by_cases h : k₀ = k
    · subst h
      simp [dictInsert]
    · simp [dictInsert, h, ih]
      tauto

theorem lookup_eq_none_iff {α : Type} (d : List (String × α)) (k : String) :
    d.lookup k = none ↔ k ∉ d.map Prod.fst := by
  induction d with
  | nil => simp [List.lookup]
  | cons kv rest ih =>
    obtain ⟨k₀, v₀⟩ := kv
    by_cases h : k = k₀
    · subst h
      simp [List.lookup]
    · simp [List.lookup, beq_eq_false_iff_ne.mpr h, ih, h]

theorem lookup_isSome_of_mem_keys {α : Type} (d : List (String × α))
    (k : String) (h : k ∈ d.map Prod.fst) : (d.lookup k).isSome := by
  cases hl : d.lookup k with
  | some v => rfl
  | none => exact absurd h ((lookup_eq_none_iff d k).mp hl)

/-! ### The script never reads the ground-truth fields beyond `image`,
`label` and `id`: rewriting every ground-truth record with any function
that preserves those three fields leaves the whole run unchanged. -/

theorem dictMapVal_dictInsert (u : GtItem → GtItem)
    (d : List (String × GtItem)) (k : String) (v : GtItem) :
    dictMapVal u (dictInsert d k v) = dictInsert (dictMapVal u d) k (u v) := by
  induction d with
  | nil => simp [dictInsert, dictMapVal]
  | cons kv rest ih =>
    obtain ⟨k₀, v₀⟩ := kv
    by_cases h : k₀ = k
    · simp [dictInsert, dictMapVal, h]
    · simp only [dictInsert, dictMapVal, h, if_false, List.map_cons]
      simpa [dictMapVal] using ih

theorem buildLargeMapAux_map (u : GtItem → GtItem)
    (himg : ∀ g, (u g).image = g.image) (gt : List GtItem) :
    ∀ acc, buildLargeMapAux (dictMapVal u acc) (gt.map u)
      = dictMapVal u (buildLargeMapAux acc gt) := by
  induction gt with
  | nil => intro acc; simp [buildLargeMapAux]
  | cons g rest ih =>
    intro acc
    simp only [List.map_cons, buildLargeMapAux, himg g]
    rw [← dictMapVal_dictInsert, ih]

theorem buildLargeMap_map (u : GtItem → GtItem)
    (himg : ∀ g, (u g).image = g.image) (gt : List GtItem) :
    buildLargeMap (gt.map u) = dictMapVal u (buildLargeMap gt) := by
  simpa [dictMapVal] using buildLargeMapAux_map u himg gt []

theorem lookup_dictMapVal (u : GtItem → GtItem)
    (d : List (String × GtItem)) (k : String) :
    (dictMapVal u d).lookup k = (d.lookup k).map u := by
  induction d with
  | nil => simp [dictMapVal, List.lookup]
  | cons kv rest ih =>
    obtain ⟨k₀, v₀⟩ := kv
    by_cases h : k = k₀
    · subst h; simp [dictMapVal, List.lookup]
    · simpa [dictMapVal, List.lookup,
        beq_eq_false_iff_ne.mpr h] using ih

theorem matchingKeys_dictMapVal (u : GtItem → GtItem)
    (lm : List (String × GtItem)) (pm : List (String × Json)) :
    matchingKeys (dictMapVal u lm) pm = matchingKeys lm pm := by
  simp [matchingKeys, dictMapVal, List.map_map]
  rfl

theorem compareLoopStep_dictMapVal (u : GtItem → GtItem)
    (hlabel : ∀ g, (u g).label = g.label) (hid : ∀ g, (u g).id = g.id)
    (lm : List (String × GtItem)) (pm : List (String × Json))
    (acc : LoopAcc) (k : String) :
    compareLoopStep (dictMapVal u lm) pm acc k = compareLoopStep lm pm acc k := by
  unfold compareLoopStep pyDictGet
  rw [lookup_dictMapVal]
  cases lm.lookup k with
  | none => rfl
  | some g => simp only [bind, Except.bind, Option.map_some', hlabel g, hid g]

theorem compareLoop_dictMapVal (u : GtItem → GtItem)
    (hlabel : ∀ g, (u g).label = g.label) (hid : ∀ g, (u g).id = g.id)
    (lm : List (String × GtItem)) (pm : List (String × Json))
    (keys : List String) :
    ∀ acc, compareLoop (dictMapVal u lm) pm acc keys = compareLoop lm pm acc keys := by
  induction keys with
  | nil => intro acc; rfl
  | cons k ks ih =>
    intro acc
    simp only [compareLoop, compareLoopStep_dictMapVal u hlabel hid]
    cases compareLoopStep lm pm acc k with
    | error e => rfl
    | ok acc' => simpa [Except.bind] using ih acc'

/-- The whole run is unchanged by any rewrite of the ground-truth records
that preserves the three fields the script reads. -/
theorem compare_predictions_congr_gt (u : GtItem → GtItem)
    (himg : ∀ g, (u g).image = g.image)
    (hlabel : ∀ g, (u g).label = g.label) (hid : ∀ g, (u g).id = g.id)
    (gt : List GtItem) (preds : List PredRaw) :
    compare_predictions (gt.map u) preds = compare_predictions gt preds := by
  unfold compare_predictions
  rw [buildLargeMap_map u himg]
  cases buildPredictionMap preds with
  | error e => rfl
  | ok pmlogs =>
    simp only [Except.bind, matchingKeys_dictMapVal,
      compareLoop_dictMapVal u hlabel hid]

/-! ### Parse failures and the prediction map -/

theorem buildPredictionMapAux_keys_mono :
    ∀ (preds : List PredRaw) (acc : List (String × Json)) (logs : List String)
      (pm : List (String × Json)) (lgs : List String),
    buildPredictionMapAux acc logs preds = .ok (pm, lgs) →
    ∀ k, k ∈ acc.map Prod.fst → k ∈ pm.map Prod.fst := by
  intro preds
  induction preds with
  | nil =>
    intro acc logs pm lgs h k hk
    simp only [buildPredictionMapAux, Except.ok.injEq, Prod.mk.injEq] at h
    exact h.1 ▸ hk
  | cons o rest ih =>
    intro acc logs pm lgs h k hk
    simp only [buildPredictionMapAux] at h
    cases ho : o.prediction with
    | str s =>
      rw [ho] at h
      dsimp only at h
      cases hr : (parse_prediction_logged s).result with
      | some p =>
        rw [hr] at h
        dsimp only at h
        by_cases ht : p.truthy
        · rw [if_pos ht] at h
          exact ih _ _ _ _ h k ((mem_keys_dictInsert acc o.filename k p).mpr (Or.inr hk))
        · rw [if_neg ht] at h
          exact ih _ _ _ _ h k hk
      | none =>
        rw [hr] at h
        dsimp only at h
        exact ih _ _ _ _ h k hk
    | null => rw [ho] at h; simp at h
    | bool b => rw [ho] at h; simp at h
    | num q => rw [ho] at h; simp at h
    | arr l => rw [ho] at h; simp at h
    | obj l => rw [ho] at h; simp at h

theorem buildPredictionMapAux_mem_keys :
    ∀ (preds : List PredRaw) (acc : List (String × Json)) (logs : List String)
      (pm : List (String × Json)) (lgs : List String) (o : PredRaw) (s : String)
      (p : Json),
    buildPredictionMapAux acc logs preds = .ok (pm, lgs) →
    o ∈ preds → o.prediction = .str s →
    (parse_prediction_logged s).result = some p → p.truthy = true →
    o.filename ∈ pm.map Prod.fst := by
  intro preds
  induction preds with
  | nil => intro _ _ _ _ _ _ _ _ hmem; cases hmem
  | cons o' rest ih =>
    intro acc logs pm lgs o s p h hmem hstr hres ht
    simp only [buildPredictionMapAux] at h
    rcases List.mem_cons.mp hmem with rfl | hmem'
    · rw [hstr] at h
      dsimp only at h
      rw [hres] at h
      dsimp only at h
      rw [if_pos ht] at h
      exact buildPredictionMapAux_keys_mono rest _ _ _ _ h o.filename
        ((mem_keys_dictInsert acc o.filename o.filename p).mpr (Or.inl rfl))
    · cases ho : o'.prediction with
      | str s' =>
        rw [ho] at h
        dsimp only at h
        cases hr : (parse_prediction_logged s').result with
        | some p' =>
          rw [hr] at h
          dsimp only at h
          by_cases ht' : p'.truthy
          · rw [if_pos ht'] at h
            exact ih _ _ _ _ o s p h hmem' hstr hres ht
          · rw [if_neg ht'] at h
            exact ih _ _ _ _ o s p h hmem' hstr hres ht
        | none =>
          rw [hr] at h
          dsimp only at h
          exact ih _ _ _ _ o s p h hmem' hstr hres ht
      | null => rw [ho] at h; simp at h
      | bool b => rw [ho] at h; simp at h
      | num q => rw [ho] at h; simp at h
      | arr l => rw [ho] at h; simp at h
      | obj l => rw [ho] at h; simp at h

theorem buildPredictionMapAux_lookup_none :
    ∀ (preds : List PredRaw) (acc : List (String × Json)) (logs : List String)
      (pm : List (String × Json)) (lgs : List String) (f : String),
    (∀ o ∈ preds, o.filename = f →
      ∃ s, o.prediction = .str s ∧ parse_prediction s = none) →
    acc.lookup f = none →
    buildPredictionMapAux acc logs preds = .ok (pm, lgs) →
    pm.lookup f = none := by
  intro preds
  induction preds with
  | nil =>
    intro acc logs pm lgs f _ hacc h
    simp only [buildPredictionMapAux, Except.ok.injEq, Prod.mk.injEq] at h
    exact h.1 ▸ hacc
  | cons o rest ih =>
    intro acc logs pm lgs f hall hacc h
    simp only [buildPredictionMapAux] at h
    by_cases hf : o.filename = f
    · obtain ⟨s, hstr, hfail⟩ := hall o (List.mem_cons_self o rest) hf
      have hres : (parse_prediction_logged s).result = none := hfail
      rw [hstr] at h
      dsimp only at h
      rw [hres] at h
      dsimp only at h
      exact ih _ _ _ _ f (fun o' ho' => hall o' (List.mem_cons_of_mem o ho')) hacc h
    · cases ho : o.prediction with
      | str s =>
        rw [ho] at h
        dsimp only at h
        cases hr : (parse_prediction_logged s).result with
        | some p =>
          rw [hr] at h
          dsimp only at h
          by_cases ht : p.truthy
          · rw [if_pos ht] at h
            refine ih _ _ _ _ f (fun o' ho' => hall o' (List.mem_cons_of_mem o ho')) ?_ h
            rw [lookup_dictInsert_ne acc o.filename f p (fun e => hf e.symm)]
            exact hacc
          · rw [if_neg ht] at h
            exact ih _ _ _ _ f (fun o' ho' => hall o' (List.mem_cons_of_mem o ho')) hacc h
        | none =>
          rw [hr] at h
          dsimp only at h
          exact ih _ _ _ _ f (fun o' ho' => hall o' (List.mem_cons_of_mem o ho')) hacc h
      | null => rw [ho] at h; simp at h
      | bool b => rw [ho] at h; simp at h
      | num q => rw [ho] at h; simp at h
      | arr l => rw [ho] at h; simp at h
      | obj l => rw [ho] at h; simp at h

theorem buildPredictionMapAux_filter_fst :
    ∀ (preds : List PredRaw) (f : String),
    (∀ o ∈ preds, o.filename = f →
      ∃ s, o.prediction = .str s ∧ parse_prediction s = none) →
    ∀ (acc : List (String × Json)) (l1 l2 : List String),
    Except.map Prod.fst (buildPredictionMapAux acc l1 preds)
      = Except.map Prod.fst
          (buildPredictionMapAux acc l2 (preds.filter (fun o => o.filename != f))) := by
  intro preds f
  induction preds with
  | nil => intro _ _ _ _; simp [buildPredictionMapAux, List.filter, Except.map]
  | cons o rest ih =>
    intro hall acc l1 l2
    have hrest := fun o' ho' => hall o' (List.mem_cons_of_mem o ho')
    by_cases hf : o.filename = f
    · obtain ⟨s, hstr, hfail⟩ := hall o (List.mem_cons_self o rest) hf
      have hres : (parse_prediction_logged s).result = none := hfail
      have hfilter : (o.filename != f) = false := by
        simp [hf]
      simp only [List.filter, hfilter, buildPredictionMapAux, hstr, hres]
      exact ih hrest acc (l1 ++ (parse_prediction_logged s).log) l2
    · have hfilter : (o.filename != f) = true := by
        simp [hf]
      simp only [List.filter, hfilter, buildPredictionMapAux]
      cases ho : o.prediction with
      | str s =>
        cases hr : (parse_prediction_logged s).result with
        | some p =>
          by_cases ht : p.truthy
          · simp only [hr, if_pos ht]
            exact ih hrest (dictInsert acc o.filename p)
              (l1 ++ (parse_prediction_logged s).log)
              (l2 ++ (parse_prediction_logged s).log)
          · simp only [hr, if_neg ht]
            exact ih hrest acc (l1 ++ (parse_prediction_logged s).log)
              (l2 ++ (parse_prediction_logged s).log)
        | none =>
          simp only [hr]
          exact ih hrest acc (l1 ++ (parse_prediction_logged s).log)
            (l2 ++ (parse_prediction_logged s).log)
      | null => rfl
      | bool b => rfl
      | num q => rfl
      | arr l => rfl
      | obj l => rfl

/-- Removing every raw entry whose payload fails to parse leaves the whole
run unchanged: failed entries never reach the prediction map. -/
theorem compare_predictions_filter_failed (gt : List GtItem)
    (preds : List PredRaw) (f : String)
    (hall : ∀ o ∈ preds, o.filename = f →
      ∃ s, o.prediction = .str s ∧ parse_prediction s = none) :
    compare_predictions gt preds
      = compare_predictions gt (preds.filter (fun o => o.filename != f)) := by
  have hfst := buildPredictionMapAux_filter_fst preds f hall [] [] []
  unfold compare_predictions buildPredictionMap
  cases h1 : buildPredictionMapAux [] [] preds with
  | error e1 =>
    cases h2 : buildPredictionMapAux [] []
        (preds.filter (fun o => o.filename != f)) with
    | error e2 =>
      rw [h1, h2] at hfst
      simp only [Except.map] at hfst
      cases hfst
      rfl
    | ok pl2 =>
      rw [h1, h2] at hfst
      simp only [Except.map] at hfst
      cases hfst
  | ok pl1 =>
    cases h2 : buildPredictionMapAux [] []
        (preds.filter (fun o => o.filename != f)) with
    | error e2 =>
      rw [h1, h2] at hfst
      simp only [Except.map] at hfst
      cases hfst
    | ok pl2 =>
      rw [h1, h2] at hfst
      simp only [Except.map, Except.ok.injEq] at hfst
      simp only [bind, Except.bind, hfst]

/-! ### Key membership in the two lookups and the matched set -/

theorem buildLargeMapAux_keys_mono :
    ∀ (gt : List GtItem) (acc : List (String × GtItem)) (k : String),
    k ∈ acc.map Prod.fst → k ∈ (buildLargeMapAux acc gt).map Prod.fst := by
  intro gt
  induction gt with
  | nil => intro acc k hk; exact hk
  | cons g rest ih =>
    intro acc k hk
    exact ih _ k ((mem_keys_dictInsert acc (pathName g.image) k g).mpr (Or.inr hk))

theorem buildLargeMapAux_mem_keys :
    ∀ (gt : List GtItem) (acc : List (String × GtItem)) (g : GtItem),
    g ∈ gt → pathName g.image ∈ (buildLargeMapAux acc gt).map Prod.fst := by
  intro gt
  induction gt with
  | nil => intro _ _ hg; cases hg
  | cons g₀ rest ih =>
    intro acc g hg
    rcases List.mem_cons.mp hg with rfl | hg'
    · exact buildLargeMapAux_keys_mono rest _ _
        ((mem_keys_dictInsert acc (pathName g.image) (pathName g.image) g).mpr
          (Or.inl rfl))
    · exact ih _ g hg'

theorem buildLargeMap_mem_keys (gt : List GtItem) (g : GtItem) (hg : g ∈ gt) :
    pathName g.image ∈ (buildLargeMap gt).map Prod.fst :=
  buildLargeMapAux_mem_keys gt [] g hg

theorem mem_matchingKeys (lm : List (String × GtItem))
    (pm : List (String × Json)) (k : String)
    (hl : k ∈ lm.map Prod.fst) (hp : k ∈ pm.map Prod.fst) :
    k ∈ matchingKeys lm pm := by
  exact List.mem_filter.mpr ⟨hl, List.elem_iff.mpr hp⟩

/-! ### The severity list collects exactly one entry per matched pair -/

theorem compareLoopStepCore_severity_length (gtLabel : String) (gtId : Json)
    (pm : List (String × Json)) (acc : LoopAcc) (key : String)
    (acc' : LoopAcc)
    (h : compareLoopStepCore gtLabel gtId pm acc key = .ok acc') :
    acc'.severity_matches.length = acc.severity_matches.length + 1 := by
  unfold compareLoopStepCore at h
  simp only [bind, Except.bind] at h
  repeat' split at h
  all_goals cases h
  all_goals simp

theorem compareLoopStep_severity_length (lm : List (String × GtItem))
    (pm : List (String × Json)) (acc : LoopAcc) (key : String)
    (acc' : LoopAcc) (h : compareLoopStep lm pm acc key = .ok acc') :
    acc'.severity_matches.length = acc.severity_matches.length + 1 := by
  unfold compareLoopStep at h
  simp only [bind, Except.bind] at h
  cases hl : pyDictGet lm key with
  | error e => rw [hl] at h; cases h
  | ok g =>
    rw [hl] at h
    dsimp only at h
    exact compareLoopStepCore_severity_length _ _ _ _ _ _ h

theorem compareLoop_severity_length :
    ∀ (keys : List String) (lm : List (String × GtItem))
      (pm : List (String × Json)) (acc res : LoopAcc),
    compareLoop lm pm acc keys = .ok res →
    res.severity_matches.length = acc.severity_matches.length + keys.length := by
  intro keys
  induction keys with
  | nil =>
    intro lm pm acc res h
    simp only [compareLoop, Except.ok.injEq] at h
    simp [h]
  | cons k ks ih =>
    intro lm pm acc res h
    simp only [compareLoop, bind, Except.bind] at h
    cases hs : compareLoopStep lm pm acc k with
    | error e => rw [hs] at h; cases h
    | ok acc' =>
      rw [hs] at h
      dsimp only at h
      have h1 := compareLoopStep_severity_length lm pm acc k acc' hs
      have h2 := ih lm pm acc' res h
      simp only [List.length_cons]
      omega

/-- On a successful run, the severity block has exactly one entry per
matched key; a missing `severity` key on any matched prediction aborts the
run instead (see the loop step), so no pair is skipped. -/
theorem compare_predictions_severity_length (gt : List GtItem)
    (preds : List PredRaw) (r : Report)
    (h : compare_predictions gt preds = .ok r) :
    r.severity_stats.length = r.total_matches := by
  unfold compare_predictions at h
  simp only [bind, Except.bind] at h
  cases hb : buildPredictionMap preds with
  | error e => rw [hb] at h; cases h
  | ok pl =>
    rw [hb] at h
    dsimp only at h
    cases hl : compareLoop (buildLargeMap gt) pl.1 initAcc
        (matchingKeys (buildLargeMap gt) pl.1) with
    | error e => rw [hl] at h; cases h
    | ok acc =>
      rw [hl] at h
      dsimp only at h
      have hlen := compareLoop_severity_length _ _ _ _ _ hl
      cases hd1 : pyDiv acc.baby_present_correct
          (matchingKeys (buildLargeMap gt) pl.1).length with
      | error e => rw [hd1] at h; cases h
      | ok q1 =>
        rw [hd1] at h
        dsimp only at h
        cases hd2 : pyDiv acc.crying_correct
            (matchingKeys (buildLargeMap gt) pl.1).length with
        | error e => rw [hd2] at h; cases h
        | ok q2 =>
          rw [hd2] at h
          dsimp only at h
          cases hd3 : pyDiv acc.sleeping_correct
              (matchingKeys (buildLargeMap gt) pl.1).length with
          | error e => rw [hd3] at h; cases h
          | ok q3 =>
            rw [hd3] at h
            dsimp only at h
            cases hg : severityStatsGuard
                (acc.severity_matches.map (fun e => e.predicted_severity)) with
            | error e => rw [hg] at h; cases h
            | ok u =>
              rw [hg] at h
              dsimp only at h
              cases hh : hazardSummary pl.1
                  (matchingKeys (buildLargeMap gt) pl.1) with
              | error e => rw [hh] at h; cases h
              | ok hz =>
                rw [hh] at h
                dsimp only at h
                cases h
                simp only [initAcc, List.length_nil, Nat.zero_add] at hlen
                simpa using hlen

/-! ### Claim C1 -/

/-- C1, counterexample.  The claim says a missing boolean category on the
prediction is substituted with `false` and the pair counted as a false
negative for `crying`; on this matched pair (ground truth
`awake/crying`, prediction without a `crying` key) the run instead aborts
with a `KeyError` for `crying` and produces no report, so nothing is counted. -/
theorem C1_counterexample :
    compare_predictions [c1_gt] [c1_pred] = .error (.keyError "crying") := rfl

/-- C1, amended.  If the `crying` attribute is absent on a matched
prediction record, the comparison raises a `KeyError` for `crying` for that
record (aborting the run) instead of substituting `false`: no default is
applied and no false negative is tallied. -/
theorem C1_missing_attribute_keyError
    (lm : List (String × GtItem)) (pm : List (String × Json))
    (acc : LoopAcc) (key : String) (g : GtItem)
    (fields : List (String × Json)) (v : Json)
    (h1 : lm.lookup key = some g)
    (h2 : pm.lookup key = some (.obj fields))
    (h3 : fields.lookup "baby_present" = some v)
    (h4 : fields.lookup "crying" = none) :
    compareLoopStep lm pm acc key = .error (.keyError "crying") := by
  simp only [compareLoopStep, compareLoopStepCore, pyDictGet, pyGetItem,
    bind, Except.bind, h1, h2, h3, h4]

/-- C1, witness for the amended theorem at a concrete matched pair. -/
theorem C1_missing_attribute_keyError_witness :
    compareLoopStep [("x.png", c1_gt)]
        [("x.png", Json.obj [("baby_present", Json.bool true)])]
        initAcc "x.png" = .error (.keyError "crying") :=
  C1_missing_attribute_keyError _ _ _ _ _ _ _ rfl rfl rfl rfl

/-! ### Claim C2 -/

/-- C2, counterexample.  The claim says the parser falls back to the
outermost brace span before signalling ParseFailure; on this payload the
spec-modelled fallback recovers a record, yet the script's parser returns
`None` — it has no fallback at all. -/
theorem C2_counterexample :
    parse_prediction c2_text = none ∧
      parse_prediction_spec c2_text = some (.obj [("baby_present", .bool true)]) :=
  ⟨rfl, rfl⟩

/-- C2, amended.  When strict parsing of the cleaned text fails, the
parser immediately signals ParseFailure (returns no record); no fallback
extraction is attempted. -/
theorem C2_no_fallback (s : String)
    (h : jsonLoads (stripTrailingCommas (fixEscapedUnderscores s)) = none) :
    parse_prediction s = none := by
  simp only [parse_prediction, parse_prediction_logged, h]

/-- C2, witness for the amended theorem on a concrete unparseable text. -/
theorem C2_no_fallback_witness :
    jsonLoads (stripTrailingCommas (fixEscapedUnderscores "no braces here")) = none ∧
      parse_prediction "no braces here" = none :=
  ⟨rfl, C2_no_fallback "no braces here" rfl⟩

/-! ### Claim C3 -/

/-- C3, counterexample.  The claim says the severity metric consumes only
pairs where both sides are present and coercible, skipping the rest; on
this matched pair with no `severity` key the run instead aborts with
a `KeyError` for `severity` — nothing is skipped, no explicit no-data state is
reported, and no mean-absolute-error style statistic against ground truth
is ever produced. -/
theorem C3_counterexample :
    compare_predictions [c3_gt] [c3_pred] = .error (.keyError "severity") := rfl

/-- C3, amended.  The severity block consumes the predicted severity of
every matched pair unconditionally (a missing key aborts the run, as the
counterexample shows): on success it holds exactly one entry per matched
pair, and the ground-truth `severity` attribute is never consulted —
the reported statistics are over predictions alone. -/
theorem C3_severity_predictions_only :
    (∀ (gt : List GtItem) (preds : List PredRaw) (r : Report),
      compare_predictions gt preds = .ok r →
      r.severity_stats.length = r.total_matches) ∧
    (∀ (f : GtItem → Json) (gt : List GtItem) (preds : List PredRaw),
      compare_predictions (gt.map (fun g => { g with severity := f g })) preds
        = compare_predictions gt preds) :=
  ⟨compare_predictions_severity_length,
   fun f gt preds =>
     compare_predictions_congr_gt (fun g => { g with severity := f g })
       (fun _ => rfl) (fun _ => rfl) (fun _ => rfl) gt preds⟩

/-- C3, witness: a concrete successful run on which the amended theorem's
two parts are instantiated. -/
theorem C3_severity_predictions_only_witness :
    exceptIsOk (compare_predictions [c3w_gt] [c3w_pred]) = true ∧
    Except.map (fun r => r.severity_stats.length)
        (compare_predictions [c3w_gt] [c3w_pred])
      = Except.map (fun r => r.total_matches)
          (compare_predictions [c3w_gt] [c3w_pred]) ∧
    compare_predictions
        [{ c3w_gt with severity := Json.num 9 }] [c3w_pred]
      = compare_predictions [c3w_gt] [c3w_pred] := by
  refine ⟨rfl, ?_, ?_⟩
  · cases h : compare_predictions [c3w_gt] [c3w_pred] with
    | error e => rfl
    | ok r =>
      simp only [Except.map]
      rw [C3_severity_predictions_only.1 [c3w_gt] [c3w_pred] r h]
  · exact C3_severity_predictions_only.2 (fun _ => Json.num 9) [c3w_gt] [c3w_pred]

/-! ### Claim C4 -/

/-- C4, counterexample.  The claim says each matched pair with hazards on
both sides is classified exact/partial/no-match; the spec-modelled
classifier puts the two ground truths below into different outcomes
(exact vs. no-match against the same prediction), yet the script's whole
output is identical for both — the engine never reads ground-truth
hazards and computes no such classification. -/
theorem C4_counterexample :
    compare_predictions [c4_gtA] [c4_pred] = compare_predictions [c4_gtB] [c4_pred] ∧
    specHazardClassify c4_gtA.hazards ["cord"] = .exactMatch ∧
    specHazardClassify c4_gtB.hazards ["cord"] = .noMatch := by
  refine ⟨?_, by decide, by decide⟩
  have h := compare_predictions_congr_gt
    (fun g => { g with hazards := ["lion"] })
    (fun _ => rfl) (fun _ => rfl) (fun _ => rfl) [c4_gtA] [c4_pred]
  exact h.symm

/-- C4, amended.  For matched records the engine reads hazards from the
prediction side only — a matched prediction without a `hazards` key makes
the hazard summary raise a `KeyError` for `hazards` — and the ground-truth
hazards are never consulted: rewriting them arbitrarily leaves the whole
run unchanged.  Only a total count and a with-hazards count are produced;
no exact/partial/no-match classification exists anywhere in the output. -/
theorem C4_hazards_prediction_side_only :
    (∀ (f : GtItem → List String) (gt : List GtItem) (preds : List PredRaw),
      compare_predictions (gt.map (fun g => { g with hazards := f g })) preds
        = compare_predictions gt preds) ∧
    (∀ (k : String) (fields : List (String × Json))
        (rest : List (String × Json)) (mk : List String),
      mk.contains k = true → fields.lookup "hazards" = none →
      hazardSummary ((k, Json.obj fields) :: rest) mk
        = .error (.keyError "hazards")) := by
  constructor
  · intro f gt preds
    exact compare_predictions_congr_gt (fun g => { g with hazards := f g })
      (fun _ => rfl) (fun _ => rfl) (fun _ => rfl) gt preds
  · intro k fields rest mk hmk hnone
    simp only [hazardSummary, List.foldlM, bind, Except.bind, hmk,
      pyGetItem, hnone, if_true]

/-- C4, witness for the amended theorem at concrete inputs. -/
theorem C4_hazards_prediction_side_only_witness :
    compare_predictions [{ c4_gtA with hazards := ["knife"] }] [c4_pred]
        = compare_predictions [c4_gtA] [c4_pred] ∧
    hazardSummary [("w.png", Json.obj [("severity", Json.num 1)])] ["w.png"]
        = .error (.keyError "hazards") :=
  ⟨C4_hazards_prediction_side_only.1 (fun _ => ["knife"]) [c4_gtA] [c4_pred],
   C4_hazards_prediction_side_only.2 "w.png" [("severity", Json.num 1)] [] ["w.png"]
     (by decide) rfl⟩

/-! ### Claim C5 -/

/-- C5, counterexample.  The claim says an already-structured prediction
value is returned unchanged; instead `parse_prediction` immediately calls
the string method `.replace` on it, so a structured record raises
`AttributeError` and no value is returned. -/
theorem C5_counterexample :
    parse_prediction_value (.obj [("baby_present", .bool true)])
      = .error (.attributeError "replace") := rfl

/-- C5, amended.  A raw prediction value that is not text — a structured
record included — makes the parser raise `AttributeError` on `.replace`;
only string payloads are processed. -/
theorem C5_nonstring_attributeError (j : Json) (h : j.isStr = false) :
    parse_prediction_value j = .error (.attributeError "replace") := by
  cases j with
  | str s => simp [Json.isStr] at h
  | null => rfl
  | bool b => rfl
  | num q => rfl
  | arr l => rfl
  | obj l => rfl

/-- C5, witness for the amended theorem on a concrete structured record. -/
theorem C5_nonstring_attributeError_witness :
    Json.isStr (.obj [("severity", .num 5)]) = false ∧
      parse_prediction_value (.obj [("severity", .num 5)])
        = .error (.attributeError "replace") :=
  ⟨rfl, C5_nonstring_attributeError _ rfl⟩

/-! ### Claim C6 -/

/-- C6, confirmed.  On a text payload the parser applies, in order, the
backslash-underscore un-escape and the trailing-comma strip, then
attempts strict parsing of the cleaned text (first conjunct, holding for
every input); the spec's example with a trailing comma and an
over-escaped key both parse to the corresponding records (second and
third conjuncts). -/
theorem C6_cleanup_pipeline :
    (∀ s : String,
      parse_prediction s
        = jsonLoads (stripTrailingCommas (fixEscapedUnderscores s))) ∧
    parse_prediction "\x7b\"severity\": \"5\", \"hazards\": [\"cord\", ]\x7d"
      = some (.obj [("severity", .str "5"), ("hazards", .arr [.str "cord"])]) ∧
    parse_prediction "\x7b\"baby\\_present\": true, \x7d"
      = some (.obj [("baby_present", .bool true)]) := by
  refine ⟨fun s => ?_, rfl, rfl⟩
  simp only [parse_prediction, parse_prediction_logged]
  cases h : jsonLoads (stripTrailingCommas (fixEscapedUnderscores s)) <;> simp [h]

/-! ### Claim C7 -/

/-- C7, confirmed.  A prediction whose payload signals ParseFailure is
reported (the parser prints a non-empty diagnostic, carrying the
problematic string) and excluded from the matched set; the run behaves
exactly as if every such raw entry had been removed, so the remaining
matched records still produce their report. -/
theorem C7_parse_failures_reported_and_excluded
    (gt : List GtItem) (preds : List PredRaw) (item : PredRaw) (s : String)
    (_hmem : item ∈ preds) (_hstr : item.prediction = .str s)
    (hfail : parse_prediction s = none)
    (hall : ∀ o ∈ preds, o.filename = item.filename →
      ∃ s', o.prediction = .str s' ∧ parse_prediction s' = none) :
    (parse_prediction_logged s).log ≠ [] ∧
    (∀ pm logs, buildPredictionMap preds = .ok (pm, logs) →
      item.filename ∉ matchingKeys (buildLargeMap gt) pm) ∧
    compare_predictions gt preds
      = compare_predictions gt
          (preds.filter (fun o => o.filename != item.filename)) := by
  refine ⟨?_, ?_, compare_predictions_filter_failed gt preds item.filename hall⟩
  · simp only [parse_prediction, parse_prediction_logged] at hfail ⊢
    cases h : jsonLoads (stripTrailingCommas (fixEscapedUnderscores s)) with
    | some v => rw [h] at hfail; simp at hfail
    | none => simp [h]
  · intro pm logs hbuild hmk
    have hnone : pm.lookup item.filename = none :=
      buildPredictionMapAux_lookup_none preds [] [] pm logs item.filename hall
        rfl hbuild
    have hkeys : item.filename ∈ pm.map Prod.fst :=
      List.elem_iff.mp (List.mem_filter.mp hmk).2
    exact absurd hkeys ((lookup_eq_none_iff pm item.filename).mp hnone)

/-- C7, witness: on a concrete pair of entries, the failed payload's
diagnostic is non-empty, its filename is not matched, and the run equals
the run without the failed entry. -/
theorem C7_witness :
    (parse_prediction_logged "oops").log ≠ [] ∧
    "b.png" ∉ matchingKeys (buildLargeMap [c7w_gt])
        [("a.png", Json.obj [("ok", Json.bool true)])] ∧
    compare_predictions [c7w_gt] [c7w_good, c7w_bad]
      = compare_predictions [c7w_gt]
          ([c7w_good, c7w_bad].filter (fun o => o.filename != "b.png")) := by
  have hall : ∀ o ∈ [c7w_good, c7w_bad], o.filename = c7w_bad.filename →
      ∃ s', o.prediction = Json.str s' ∧ parse_prediction s' = none := by
    intro o ho hf
    rcases List.mem_cons.mp ho with rfl | ho'
    · exact absurd hf (by decide)
    · rcases List.mem_cons.mp ho' with rfl | ho''
      · exact ⟨"oops", rfl, rfl⟩
      · cases ho''
  have h := C7_parse_failures_reported_and_excluded [c7w_gt]
    [c7w_good, c7w_bad] c7w_bad "oops"
    (List.mem_cons_of_mem _ (List.mem_cons_self _ _)) rfl rfl hall
  exact ⟨h.1, h.2.1 [("a.png", Json.obj [("ok", Json.bool true)])]
    ["Error parsing prediction", "Problematic string: oops"] rfl, h.2.2⟩

/-! ### Claim C8 -/

/-- C8, confirmed.  Matching is by basename only: a ground-truth record
whose image path has basename equal to a prediction's filename is
reconciled with it — the filename lands in the matched-key set whenever
the prediction's payload parses to a truthy record. -/
theorem C8_basename_matching
    (gt : List GtItem) (preds : List PredRaw) (g : GtItem) (pr : PredRaw)
    (s : String) (p : Json) (pm : List (String × Json)) (logs : List String)
    (hg : g ∈ gt) (hp : pr ∈ preds)
    (hb : pathName g.image = pr.filename)
    (hstr : pr.prediction = .str s)
    (hparse : parse_prediction s = some p) (ht : p.truthy = true)
    (hbuild : buildPredictionMap preds = .ok (pm, logs)) :
    pr.filename ∈ matchingKeys (buildLargeMap gt) pm := by
  have hl : pr.filename ∈ (buildLargeMap gt).map Prod.fst :=
    hb ▸ buildLargeMap_mem_keys gt g hg
  have hpm : pr.filename ∈ pm.map Prod.fst :=
    buildPredictionMapAux_mem_keys preds [] [] pm logs pr s p hbuild hp hstr
      hparse ht
  exact mem_matchingKeys _ _ _ hl hpm

/-- C8, witness: the pair `a/b/x.png` / `x.png` is matched. -/
theorem C8_basename_matching_witness :
    "x.png" ∈ matchingKeys (buildLargeMap [c8w_gt])
      [("x.png", Json.obj [("ok", Json.bool true)])] :=
  C8_basename_matching [c8w_gt] [c8w_pred] c8w_gt c8w_pred
    "\x7b\"ok\": true\x7d" (Json.obj [("ok", Json.bool true)])
    [("x.png", Json.obj [("ok", Json.bool true)])] []
    (List.mem_cons_self _ _) (List.mem_cons_self _ _) rfl rfl rfl rfl rfl

/-! ### Claim C9 -/

/-- C9, counterexample.  The claim says the program exits non-zero when an
input path does not resolve; on an environment where the ground-truth
path is unresolvable, `main` catches the `FileNotFoundError`, prints a
message, and the process still exits with status `0`. -/
theorem C9_counterexample :
    main ⟨none, some []⟩ = (0, .fileNotFound) := rfl

/-- C9, amended.  The program exits with status zero in every case —
parse failures included — and an unresolvable input path is caught and
reported (the run aborts without a report) rather than changing the exit
status. -/
theorem C9_exit_status_zero (env : Env) :
    (main env).1 = 0 ∧
    ((env.large_json = none ∨ env.predictions_json = none) →
      (main env).2 = .fileNotFound) := by
  obtain ⟨l, p⟩ := env
  cases l with
  | none => exact ⟨rfl, fun _ => rfl⟩
  | some gt =>
    cases p with
    | none => exact ⟨rfl, fun _ => rfl⟩
    | some preds =>
      refine ⟨?_, ?_⟩
      · simp only [main]
        cases compare_predictions gt preds <;> rfl
      · rintro (h | h) <;> cases h

/-- C9, witness for the amended theorem on a concrete environment with an
unresolvable predictions path. -/
theorem C9_exit_status_zero_witness :
    (main ⟨some [], none⟩).1 = 0 ∧ (main ⟨some [], none⟩).2 = .fileNotFound :=
  ⟨(C9_exit_status_zero ⟨some [], none⟩).1,
   (C9_exit_status_zero ⟨some [], none⟩).2 (Or.inr rfl)⟩

/-! ### Claim C10 -/

/-- C10, confirmed.  When both collections load and every payload parses
but no key is shared, the accuracy divisions at the summary stage divide
by `total_matches = 0` and the run raises `ZeroDivisionError`: the
structured report exists only when at least one pair matches. -/
theorem C10_zero_matches_division_error
    (gt : List GtItem) (preds : List PredRaw) (pm : List (String × Json))
    (logs : List String)
    (hbuild : buildPredictionMap preds = .ok (pm, logs))
    (hmk : matchingKeys (buildLargeMap gt) pm = []) :
    compare_predictions gt preds = .error .zeroDivisionError := by
  unfold compare_predictions
  simp only [bind, Except.bind, hbuild]
  rw [hmk]
  simp [compareLoop, pyDiv]

/-- C10, witness: two empty collections share no key and the run fails
with the division error. -/
theorem C10_zero_matches_division_error_witness :
    compare_predictions [] [] = .error .zeroDivisionError :=
  C10_zero_matches_division_error [] [] [] [] rfl rfl

end CP


